import Mathlib

/-!
Verification of the inventory-model catalog (`inventory_models.py`).

The four Python classes `BasicEOQ`, `EPQ`, `DiscountEOQ` and `BackorderEOQ`
are embedded shallowly: Python floats become real numbers, fallible
constructors and methods return `Except String`, the mutable instance state
(`self.lead_time`, `self.eoq_value`) is threaded explicitly, the `verbose`
`analysis_mode` flag is kept as an argument (its `print` calls are dropped,
and a method that only prints on that path and falls off the end returns
`none`, Python's `None`), and Python dictionaries of discount tiers become
association lists of (breakpoint, rate) pairs in insertion order.
-/

open scoped Classical

set_option linter.unusedVariables false

noncomputable section

/-- Python's float `%` operator: `a - b * floor (a / b)` (sign of the divisor). -/
def pymod (a b : ℝ) : ℝ := a - b * ⌊a / b⌋

/-- State of a `BasicEOQ` instance: the four constructor parameters, the
derived `holding_cost`, and the two mutable attributes `lead_time` and
`eoq_value` (both `None` until written). -/
structure BasicEOQ where
  price : ℝ
  demand_rate : ℝ
  ordering_cost : ℝ
  holding_rate : ℝ
  holding_cost : ℝ
  lead_time : Option ℝ
  eoq_value : Option ℝ

/-- `BasicEOQ.__init__`: rejects any non-positive core parameter, stores the
parameters, derives `holding_cost = price * holding_rate`, and leaves
`eoq_value` unset. -/
def BasicEOQ.init (price demand_rate ordering_cost holding_rate : ℝ)
    (lead_time : Option ℝ) : Except String BasicEOQ :=
  if demand_rate ≤ 0 ∨ ordering_cost ≤ 0 ∨ price ≤ 0 ∨ holding_rate ≤ 0 then
    Except.error "All core parameters (demand_rate, price, holding_rate, ordering_cost) must be positive."
  else
    Except.ok ⟨price, demand_rate, ordering_cost, holding_rate,
      price * holding_rate, lead_time, none⟩

/-- `BasicEOQ.calculate_eoq`: returns `sqrt (2*D*S/H)` and memoizes it in
`self.eoq_value`.  The `analysis_mode` flag only gates `print` calls. -/
def BasicEOQ.calculate_eoq (m : BasicEOQ) (analysis_mode : Bool) : ℝ × BasicEOQ :=
  let eoq := Real.sqrt (2 * m.demand_rate * m.ordering_cost / m.holding_cost)
  (eoq, { m with eoq_value := some eoq })

/-- `BasicEOQ.calculate_reorder_point`: first overwrites `self.lead_time` with
the argument, then either raises (negative inputs, missing lead time) or
returns `(demand_rate / days_of_operation) * lead_time + safety_stock`.
The value component and the post-call instance state are both returned. -/
def BasicEOQ.calculate_reorder_point (m : BasicEOQ) (lead_time : Option ℝ)
    (safety_stock : ℝ) (days_of_operation : ℝ) : Except String ℝ × BasicEOQ :=
  let m' : BasicEOQ := { m with lead_time := lead_time }
  match lead_time with
  | some L =>
    if L < 0 ∨ safety_stock < 0 then
      (Except.error "Lead time and safety stock cannot be negative.", m')
    else if days_of_operation ≤ 0 then
      (Except.error "Days of operation must be a positive number.", m')
    else
      (Except.ok (m.demand_rate / days_of_operation * L + safety_stock), m')
  | none =>
    (Except.error "Lead time must be provided for reorder point calculation.", m')

/-- The expression `self.eoq_value if self.eoq_value else self.calculate_eoq()`
from `BasicEOQ.inventory_level` (Python truthiness: `None` and `0.0` both
force a recomputation, which memoizes), together with the instance state
after it. -/
def BasicEOQ.resolve_q (m : BasicEOQ) : ℝ × BasicEOQ :=
  match m.eoq_value with
  | some q => if q = 0 then m.calculate_eoq false else (q, m)
  | none => m.calculate_eoq false

/-- `BasicEOQ.inventory_level`: normalizes `t` to years, resolves `Q`, and
returns the sawtooth value `Q - D * (t % T)` — but only when `analysis_mode`
is false: the analysis branch only prints and falls off the end, returning
`None`. -/
def BasicEOQ.inventory_level (m : BasicEOQ) (t0 : ℝ) (analysis_mode : Bool) :
    Option ℝ × BasicEOQ :=
  let t := t0 / 365
  let qs := m.resolve_q
  let Q := qs.1
  let T := Q / m.demand_rate
  ((if analysis_mode then none else some (Q - m.demand_rate * pymod t T)), qs.2)

/-- State of an `EPQ` instance: the inherited `BasicEOQ` state plus the
production rate. -/
structure EPQ extends BasicEOQ where
  production_rate : ℝ

/-- `EPQ.__init__`: the parent validation, then `production_rate > 0` and
`production_rate > demand_rate`. -/
def EPQ.init (price demand_rate ordering_cost production_rate holding_rate : ℝ)
    (lead_time : Option ℝ) : Except String EPQ :=
  if demand_rate ≤ 0 ∨ ordering_cost ≤ 0 ∨ price ≤ 0 ∨ holding_rate ≤ 0 then
    Except.error "All core parameters (demand_rate, price, holding_rate, ordering_cost) must be positive."
  else if production_rate ≤ 0 then
    Except.error "Production rate must be positive."
  else if production_rate ≤ demand_rate then
    Except.error "Production rate must be greater than demand rate."
  else
    Except.ok ⟨⟨price, demand_rate, ordering_cost, holding_rate,
      price * holding_rate, lead_time, none⟩, production_rate⟩

/-- `EPQ.calculate_eoq`: re-checks `P > D` (raising otherwise) and returns
`sqrt ((2*D*S/H) * (P/(P-D)))`.  Unlike the base class it does not memoize. -/
def EPQ.calculate_eoq (m : EPQ) (analysis_mode : Bool) : Except String ℝ :=
  if m.production_rate ≤ m.demand_rate then
    Except.error "Production rate (P) must be greater than demand rate (D)."
  else
    Except.ok (Real.sqrt (2 * m.demand_rate * m.ordering_cost / m.holding_cost *
      (m.production_rate / (m.production_rate - m.demand_rate))))

/-- `max_inventory = Q * (1 - D/P)` as computed in `EPQ.inventory_level`. -/
def EPQ.max_inventory_at (m : EPQ) (Q : ℝ) : ℝ :=
  Q * (1 - m.demand_rate / m.production_rate)

/-- Production-phase branch of `EPQ.inventory_level`: `(P - D) * mod_t`. -/
def EPQ.production_phase_value (m : EPQ) (mod_t : ℝ) : ℝ :=
  (m.production_rate - m.demand_rate) * mod_t

/-- Depletion-phase branch of `EPQ.inventory_level`:
`max_inventory - D * (mod_t - Q/P)` where `Q/P` is `production_end`. -/
def EPQ.depletion_phase_value (m : EPQ) (Q mod_t : ℝ) : ℝ :=
  m.max_inventory_at Q - m.demand_rate * (mod_t - Q / m.production_rate)

/-- The `Q` resolution of `EPQ.inventory_level`; `EPQ.calculate_eoq` can
raise, and the exception propagates. -/
def EPQ.resolve_q (m : EPQ) : Except String ℝ :=
  match m.eoq_value with
  | some q => if q = 0 then m.calculate_eoq false else Except.ok q
  | none => m.calculate_eoq false

/-- `EPQ.inventory_level`: resolves `Q`, combines the two phase branches
exactly as the Python does with 0/1 boolean factors, and returns the value
only when `analysis_mode` is false (the analysis branch prints and returns
`None`). -/
def EPQ.inventory_level (m : EPQ) (t0 : ℝ) (analysis_mode : Bool) :
    Except String (Option ℝ) :=
  let t := t0 / 365
  match m.resolve_q with
  | Except.error e => Except.error e
  | Except.ok Q =>
    let T := Q / m.demand_rate
    let mod_t := pymod t T
    let production_end := Q / m.production_rate
    let inventory :=
      (if mod_t ≤ production_end then m.production_phase_value mod_t else 0)
        + (if production_end < mod_t then m.depletion_phase_value Q mod_t else 0)
    Except.ok (if analysis_mode then none else some inventory)

/-- The order `sorted(...)` uses on Python pairs: lexicographic. -/
def tierLe (x y : ℝ × ℝ) : Prop := x.1 < y.1 ∨ (x.1 = y.1 ∧ x.2 ≤ y.2)

instance : DecidableRel tierLe := fun _ _ => Classical.propDecidable _

instance : IsTotal (ℝ × ℝ) tierLe where
  total x y := by
    rcases lt_trichotomy x.1 y.1 with h | h | h
    · exact Or.inl (Or.inl h)
    · rcases le_total x.2 y.2 with h2 | h2
      · exact Or.inl (Or.inr ⟨h, h2⟩)
      · exact Or.inr (Or.inr ⟨h.symm, h2⟩)
    · exact Or.inr (Or.inl h)

instance : IsTrans (ℝ × ℝ) tierLe where
  trans x y z hxy hyz := by
    rcases hxy with h1 | ⟨e1, r1⟩
    · rcases hyz with h2 | ⟨e2, _⟩
      · exact Or.inl (h1.trans h2)
      · exact Or.inl (e2 ▸ h1)
    · rcases hyz with h2 | ⟨e2, r2⟩
      · exact Or.inl (e1 ▸ h2)
      · exact Or.inr ⟨e1.trans e2, r1.trans r2⟩

/-- State of a `DiscountEOQ` instance: the inherited `BasicEOQ` state, the
sorted tier list `self.sorted_discounts` used by the tier search, and the
mapping `self.discount_rates` (insertion-ordered association list). -/
structure DiscountEOQ extends BasicEOQ where
  sorted_discounts : List (ℝ × ℝ)
  discount_rates : List (ℝ × ℝ)

/-- `DiscountEOQ.__init__`: parent validation; a missing/empty mapping and
out-of-range rates raise.  `sorted_discounts` is the sorted snapshot of the
caller's mapping, taken BEFORE the `0 → 0` base tier is injected into
`discount_rates` (the injection appends, as Python dict insertion does). -/
def DiscountEOQ.init (price demand_rate ordering_cost holding_rate : ℝ)
    (lead_time : Option ℝ) (discount_rates : List (ℝ × ℝ)) :
    Except String DiscountEOQ :=
  if demand_rate ≤ 0 ∨ ordering_cost ≤ 0 ∨ price ≤ 0 ∨ holding_rate ≤ 0 then
    Except.error "All core parameters (demand_rate, price, holding_rate, ordering_cost) must be positive."
  else if discount_rates = [] then
    Except.error "discount_rates dictionary must be provided."
  else if ¬ (∀ x ∈ discount_rates, 0 ≤ x.2 ∧ x.2 < 1) then
    Except.error "All discount rates must be between 0 and 1."
  else
    Except.ok ⟨⟨price, demand_rate, ordering_cost, holding_rate,
        price * holding_rate, lead_time, none⟩,
      List.insertionSort tierLe discount_rates,
      if ∃ x ∈ discount_rates, x.1 = 0 then discount_rates
      else discount_rates ++ [(0, 0)]⟩

/-- `DiscountEOQ.calculate_total_cost`: purchase + ordering + holding cost,
with the ordering component zeroed when `quantity` is not positive. -/
def DiscountEOQ.calculate_total_cost (m : DiscountEOQ) (quantity price : ℝ) : ℝ :=
  m.demand_rate * price
    + (if quantity > 0 then m.demand_rate / quantity * m.ordering_cost else 0)
    + quantity / 2 * (price * m.holding_rate)

/-- One tier's valid order quantity in `DiscountEOQ.calculate_eoq`: the
candidate EOQ at the tier's discounted price, clamped to
`[min_qty, next_break - 1]` — the upper bound being one unit below the next
tier's breakpoint (`rest` is the tail of the sorted tier list after this
tier), and absent (`inf`, so never binding) on the last tier. -/
def DiscountEOQ.tier_order_quantity (m : DiscountEOQ) (min_qty discount_rate : ℝ)
    (rest : List (ℝ × ℝ)) : ℝ :=
  let discounted_price := m.price * (1 - discount_rate)
  let H := discounted_price * m.holding_rate
  let candidate_eoq := Real.sqrt (2 * m.demand_rate * m.ordering_cost / H)
  match rest with
  | [] => if candidate_eoq < min_qty then min_qty else candidate_eoq
  | (next_break, _) :: _ =>
    if candidate_eoq > next_break - 1 then next_break - 1
    else if candidate_eoq < min_qty then min_qty
    else candidate_eoq

/-- The tier loop of `DiscountEOQ.calculate_eoq`.  The accumulator holds
`(best_order_quantity, min_total_cost, best_unit_price)`; `none` plays the
role of the initial `None` / `inf` state (any finite cost beats it).  Each
step computes the tier's discounted price, clamped quantity and total cost,
and keeps the accumulator unless the new cost is strictly smaller. -/
def DiscountEOQ.tierSearch (m : DiscountEOQ) :
    List (ℝ × ℝ) → Option (ℝ × ℝ × ℝ) → Option (ℝ × ℝ × ℝ)
  | [], best => best
  | (min_qty, discount_rate) :: rest, best =>
    let discounted_price := m.price * (1 - discount_rate)
    let order_quantity := m.tier_order_quantity min_qty discount_rate rest
    let total_cost := m.calculate_total_cost order_quantity discounted_price
    match best with
    | none => m.tierSearch rest (some (order_quantity, total_cost, discounted_price))
    | some best' =>
      if total_cost < best'.2.1 then
        m.tierSearch rest (some (order_quantity, total_cost, discounted_price))
      else m.tierSearch rest (some best')

/-- The final loop state of `DiscountEOQ.calculate_eoq`:
`(best_order_quantity, min_total_cost, best_unit_price)`. -/
def DiscountEOQ.search_result (m : DiscountEOQ) : Option (ℝ × ℝ × ℝ) :=
  m.tierSearch m.sorted_discounts none

/-- `DiscountEOQ.calculate_eoq`: runs the tier search over
`self.sorted_discounts` and returns ONLY `best_order_quantity`
(`min_total_cost` and `best_unit_price` are computed but not returned). -/
def DiscountEOQ.calculate_eoq (m : DiscountEOQ) (analysis_mode : Bool) : Option ℝ :=
  (m.search_result).map fun b => b.1

/-- State of a `BackorderEOQ` instance: the inherited `BasicEOQ` state plus
the shortage cost. -/
structure BackorderEOQ extends BasicEOQ where
  shortage_cost : ℝ

/-- `BackorderEOQ.__init__`: parent validation, then `shortage_cost > 0`. -/
def BackorderEOQ.init (price demand_rate ordering_cost shortage_cost holding_rate : ℝ)
    (lead_time : Option ℝ) : Except String BackorderEOQ :=
  if demand_rate ≤ 0 ∨ ordering_cost ≤ 0 ∨ price ≤ 0 ∨ holding_rate ≤ 0 then
    Except.error "All core parameters (demand_rate, price, holding_rate, ordering_cost) must be positive."
  else if shortage_cost ≤ 0 then
    Except.error "shortage_cost must be positive."
  else
    Except.ok ⟨⟨price, demand_rate, ordering_cost, holding_rate,
      price * holding_rate, lead_time, none⟩, shortage_cost⟩

/-- `BackorderEOQ.calculate_eoq`: `sqrt ((2*D*S*(H+P)) / (H*P))`; pure, no
memoization. -/
def BackorderEOQ.calculate_eoq (m : BackorderEOQ) (analysis_mode : Bool) : ℝ :=
  Real.sqrt (2 * m.demand_rate * m.ordering_cost *
    (m.holding_cost + m.shortage_cost) / (m.holding_cost * m.shortage_cost))

/-- The dictionary returned by `BackorderEOQ.calculate_cycle_metrics`. -/
structure CycleMetrics where
  Q_opt : ℝ
  S_max : ℝ
  B_max : ℝ
  TotalCost : ℝ

/-- `BackorderEOQ.calculate_cycle_metrics`: recomputes `Q*` and derives
`S_max = (P/(H+P))Q`, `B_max = (H/(H+P))Q` and the annual total cost. -/
def BackorderEOQ.calculate_cycle_metrics (m : BackorderEOQ) : CycleMetrics :=
  let Q := m.calculate_eoq false
  let max_inventory := m.shortage_cost / (m.holding_cost + m.shortage_cost) * Q
  let max_backorder := m.holding_cost / (m.holding_cost + m.shortage_cost) * Q
  ⟨Q, max_inventory, max_backorder,
    m.demand_rate * m.ordering_cost / Q
      + m.holding_cost * max_inventory ^ 2 / (2 * Q)
      + m.shortage_cost * max_backorder ^ 2 / (2 * Q)⟩

/-- The `Q` resolution of `BackorderEOQ.inventory_level` (truthiness as in
the base class; `BackorderEOQ.calculate_eoq` is pure). -/
def BackorderEOQ.resolve_q (m : BackorderEOQ) : ℝ :=
  match m.eoq_value with
  | some q => if q = 0 then m.calculate_eoq false else q
  | none => m.calculate_eoq false

/-- `BackorderEOQ.inventory_level`: unlike the base class, the final `return`
sits outside the analysis branch, so the value is returned for both flag
settings. -/
def BackorderEOQ.inventory_level (m : BackorderEOQ) (t0 : ℝ)
    (analysis_mode : Bool) : ℝ :=
  let t := t0 / 365
  let Q := m.resolve_q
  let T := Q / m.demand_rate
  let max_inventory := m.shortage_cost / (m.holding_cost + m.shortage_cost) * Q
  let max_backorder := m.holding_cost / (m.holding_cost + m.shortage_cost) * Q
  let mod_t := pymod t T
  let inventory_end := max_inventory / m.demand_rate
  (if mod_t ≤ inventory_end then max_inventory - m.demand_rate * mod_t else 0)
    + (if inventory_end < mod_t then -(m.demand_rate * (mod_t - inventory_end)) else 0)

/-! ### Concrete instances (test fixtures from the repository's test suite) -/

/-- `BasicEOQ(price=10, demand_rate=1200, ordering_cost=50, holding_rate=0.2)`. -/
def basic_example : BasicEOQ :=
  ⟨10, 1200, 50, 0.2, 10 * 0.2, none, none⟩

/-- `EPQ(price=12, demand_rate=500, ordering_cost=40, production_rate=1000, holding_rate=0.25)`. -/
def epq_example : EPQ :=
  ⟨⟨12, 500, 40, 0.25, 12 * 0.25, none, none⟩, 1000⟩

/-- `BackorderEOQ(price=9, demand_rate=1500, ordering_cost=45, shortage_cost=3, holding_rate=0.22)`. -/
def backorder_example : BackorderEOQ :=
  ⟨⟨9, 1500, 45, 0.22, 9 * 0.22, none, none⟩, 3⟩

/-- `DiscountEOQ(price=15, demand_rate=1000, ordering_cost=40,
holding_rate=0.25, discount_rates={500: 0.05, 1200: 0.10})`. -/
def discount_example : DiscountEOQ :=
  ⟨⟨15, 1000, 40, 0.25, 15 * 0.25, none, none⟩,
    [(500, 0.05), (1200, 0.10)],
    [(500, 0.05), (1200, 0.10), (0, 0)]⟩

/-- `DiscountEOQ(price=15, demand_rate=1000, ordering_cost=40,
holding_rate=0.25, discount_rates={500: 0.05})`. -/
def discount_single_example : DiscountEOQ :=
  ⟨⟨15, 1000, 40, 0.25, 15 * 0.25, none, none⟩,
    [(500, 0.05)],
    [(500, 0.05), (0, 0)]⟩

/-- `DiscountEOQ(price=10, demand_rate=1000, ordering_cost=50,
holding_rate=0.2, discount_rates={0: 0, 1: 0})`. -/
def discount_zero_example : DiscountEOQ :=
  ⟨⟨10, 1000, 50, 0.2, 10 * 0.2, none, none⟩,
    [(0, 0), (1, 0)],
    [(0, 0), (1, 0)]⟩

lemma basic_example_init :
    BasicEOQ.init 10 1200 50 0.2 none = Except.ok basic_example := by
  rw [BasicEOQ.init, if_neg (by norm_num)]
  rfl

lemma epq_example_init :
    EPQ.init 12 500 40 1000 0.25 none = Except.ok epq_example := by
  rw [EPQ.init, if_neg (by norm_num), if_neg (by norm_num), if_neg (by norm_num)]
  rfl

lemma backorder_example_init :
    BackorderEOQ.init 9 1500 45 3 0.22 none = Except.ok backorder_example := by
  rw [BackorderEOQ.init, if_neg (by norm_num), if_neg (by norm_num)]
  rfl

lemma discount_example_init :
    DiscountEOQ.init 15 1000 40 0.25 none [(500, 0.05), (1200, 0.10)]
      = Except.ok discount_example := by
  rw [DiscountEOQ.init, if_neg (by norm_num), if_neg (by simp),
    if_neg (by simp only [not_not, List.forall_mem_cons, List.forall_mem_nil]; norm_num),
    if_neg (by norm_num)]
  have hsort : List.insertionSort tierLe [((500 : ℝ), (0.05 : ℝ)), (1200, 0.10)]
      = [(500, 0.05), (1200, 0.10)] := by
    simp only [List.insertionSort, List.orderedInsert]
    rw [if_pos (show tierLe (500, 0.05) (1200, 0.10) from Or.inl (by norm_num))]
  rw [hsort]
  rfl

lemma discount_single_example_init :
    DiscountEOQ.init 15 1000 40 0.25 none [(500, 0.05)]
      = Except.ok discount_single_example := by
  rw [DiscountEOQ.init, if_neg (by norm_num), if_neg (by simp),
    if_neg (by simp only [not_not, List.forall_mem_cons, List.forall_mem_nil]; norm_num),
    if_neg (by norm_num)]
  have hsort : List.insertionSort tierLe [((500 : ℝ), (0.05 : ℝ))] = [(500, 0.05)] := by
    simp only [List.insertionSort, List.orderedInsert]
  rw [hsort]
  rfl

lemma discount_zero_example_init :
    DiscountEOQ.init 10 1000 50 0.2 none [(0, 0), (1, 0)]
      = Except.ok discount_zero_example := by
  rw [DiscountEOQ.init, if_neg (by norm_num), if_neg (by simp),
    if_neg (by simp only [not_not, List.forall_mem_cons, List.forall_mem_nil]; norm_num),
    if_pos (show ∃ x ∈ [((0 : ℝ), (0 : ℝ)), (1, 0)], x.1 = 0 from ⟨(0, 0), by simp, rfl⟩)]
  have hsort : List.insertionSort tierLe [((0 : ℝ), (0 : ℝ)), (1, 0)]
      = [(0, 0), (1, 0)] := by
    simp only [List.insertionSort, List.orderedInsert]
    rw [if_pos (show tierLe (0, 0) (1, 0) from Or.inl (by norm_num))]
  rw [hsort]
  rfl

/-! ### Claim theorems -/

/-- C2: for every validly constructed basic model, `calculate_eoq` returns
`sqrt (2*demandRate*orderingCost / holdingCost)` with
`holdingCost = price*holdingRate`; for `price=10, D=1200, S=50,
holdingRate=0.2` it returns `sqrt 60000`, which is within relative tolerance
`1e-6` of `244.949`. -/
theorem basic_eoq_formula_spec :
    (∀ (p D S h : ℝ) (lt : Option ℝ) (m : BasicEOQ) (b : Bool),
        BasicEOQ.init p D S h lt = Except.ok m →
        (m.calculate_eoq b).1 = Real.sqrt (2 * D * S / (p * h)))
    ∧ BasicEOQ.init 10 1200 50 0.2 none = Except.ok basic_example
    ∧ (basic_example.calculate_eoq false).1 = Real.sqrt 60000
    ∧ |Real.sqrt 60000 - 244.949| ≤ 1e-6 * 244.949 := by
  refine ⟨?_, basic_example_init, ?_, ?_⟩
  · intro p D S h lt m b hm
    rw [BasicEOQ.init] at hm
    split_ifs at hm
    cases hm
    rfl
  · show Real.sqrt (2 * 1200 * 50 / (10 * 0.2)) = Real.sqrt 60000
    norm_num
  · have h1 : Real.sqrt 60000 < 244.949 :=
      (Real.sqrt_lt' (by norm_num)).mpr (by norm_num)
    have h2 : (244.94876 : ℝ) < Real.sqrt 60000 :=
      (Real.lt_sqrt (by norm_num)).mpr (by norm_num)
    rw [abs_le]
    constructor <;> nlinarith

/-- Witness for C2: the universally quantified part instantiated at the
concrete model of the repository's basic test. -/
theorem basic_eoq_formula_spec_witness :
    (basic_example.calculate_eoq false).1 = Real.sqrt (2 * 1200 * 50 / (10 * 0.2)) :=
  basic_eoq_formula_spec.1 10 1200 50 0.2 none basic_example false basic_example_init

/-- C10: calling `calculate_reorder_point` with `lead_time=None` raises
(`Lead time must be provided`) instead of returning a value, on every model
class (all four share the inherited implementation). -/
theorem reorder_point_none_raises :
    (∀ (m : BasicEOQ) (ss d : ℝ),
        (m.calculate_reorder_point none ss d).1 =
          Except.error "Lead time must be provided for reorder point calculation.")
    ∧ (∀ (m : EPQ) (ss d : ℝ),
        (m.toBasicEOQ.calculate_reorder_point none ss d).1 =
          Except.error "Lead time must be provided for reorder point calculation.")
    ∧ (∀ (m : DiscountEOQ) (ss d : ℝ),
        (m.toBasicEOQ.calculate_reorder_point none ss d).1 =
          Except.error "Lead time must be provided for reorder point calculation.")
    ∧ (∀ (m : BackorderEOQ) (ss d : ℝ),
        (m.toBasicEOQ.calculate_reorder_point none ss d).1 =
          Except.error "Lead time must be provided for reorder point calculation.") :=
  ⟨fun _ _ _ => rfl, fun _ _ _ => rfl, fun _ _ _ => rfl, fun _ _ _ => rfl⟩

/-- C3 (amended): the analysis flag never affects the value returned by
`calculate_eoq` on any model, nor by `BackorderEOQ.inventory_level`; but
`BasicEOQ.inventory_level` and `EPQ.inventory_level` return `None` when the
flag is true and a value only when it is false, so for those two methods the
flag does change the returned value. -/
theorem analysis_flag_noninterference_amended :
    (∀ (m : BasicEOQ) (b b' : Bool), m.calculate_eoq b = m.calculate_eoq b')
    ∧ (∀ (m : EPQ) (b b' : Bool), m.calculate_eoq b = m.calculate_eoq b')
    ∧ (∀ (m : DiscountEOQ) (b b' : Bool), m.calculate_eoq b = m.calculate_eoq b')
    ∧ (∀ (m : BackorderEOQ) (b b' : Bool), m.calculate_eoq b = m.calculate_eoq b')
    ∧ (∀ (m : BackorderEOQ) (t : ℝ) (b b' : Bool),
        m.inventory_level t b = m.inventory_level t b')
    ∧ (∀ (m : BasicEOQ) (t : ℝ),
        (m.inventory_level t true).1 = none
          ∧ ∃ v, (m.inventory_level t false).1 = some v)
    ∧ (∀ (m : EPQ) (t : ℝ),
        (∀ v, m.inventory_level t true ≠ Except.ok (some v))
          ∧ m.inventory_level t false ≠ Except.ok none) := by
  refine ⟨fun _ _ _ => rfl, fun _ _ _ => rfl, fun _ _ _ => rfl, fun _ _ _ => rfl,
    fun _ _ _ _ => rfl, fun m t => ⟨rfl, ⟨_, rfl⟩⟩, fun m t => ?_⟩
  cases hq : m.resolve_q with
  | error e => constructor <;> simp [EPQ.inventory_level, hq]
  | ok Q => constructor <;> simp [EPQ.inventory_level, hq]

/-- Counterexample to C3 as stated: on the basic test model, the inventory
level at `t = 0` is `None` with the flag on and a value with the flag off. -/
theorem analysis_flag_noninterference_counterexample :
    (basic_example.inventory_level 0 true).1 ≠ (basic_example.inventory_level 0 false).1 := by
  simp [BasicEOQ.inventory_level]

/-- C4 (amended): a valid `calculate_reorder_point` call returns
`(demandRate/daysOfOperation)*leadTime + safetyStock`, and its only effect
on the instance is overwriting the `lead_time` field with the supplied
argument; every other field is unchanged. -/
theorem reorder_point_value_and_frame (m : BasicEOQ) (L ss d : ℝ)
    (hL : 0 ≤ L) (hss : 0 ≤ ss) (hd : 0 < d) :
    m.calculate_reorder_point (some L) ss d =
      (Except.ok (m.demand_rate / d * L + ss), { m with lead_time := some L }) := by
  rw [BasicEOQ.calculate_reorder_point]
  rw [if_neg (by push_neg; exact ⟨hL, hss⟩), if_neg (not_le.mpr hd)]

/-- Witness for C4 (amended): the reorder-point test call
`(lead_time=10, safety_stock=5, days_of_operation=250)`. -/
theorem reorder_point_value_and_frame_witness :
    basic_example.calculate_reorder_point (some 10) 5 250 =
      (Except.ok (basic_example.demand_rate / 250 * 10 + 5),
        { basic_example with lead_time := some (10 : ℝ) }) :=
  reorder_point_value_and_frame basic_example 10 5 250 (by norm_num) (by norm_num)
    (by norm_num)

/-- Counterexample to C4 as stated: the same valid call does NOT leave every
field of the instance unchanged — it writes the `lead_time` field. -/
theorem reorder_point_mutates_state :
    BasicEOQ.init 10 1200 50 0.2 none = Except.ok basic_example
    ∧ (basic_example.calculate_reorder_point (some 10) 5 250).2 ≠ basic_example := by
  refine ⟨basic_example_init, ?_⟩
  rw [BasicEOQ.calculate_reorder_point]
  rw [if_neg (by norm_num), if_neg (by norm_num)]
  intro h
  have h2 := congrArg BasicEOQ.lead_time h
  simp [basic_example] at h2

/-- C7: construction raises for `price=0`, `demandRate<0`, `orderingCost<0`,
`holdingRate<0` (basic), `productionRate ≤ demandRate` (production),
`shortageCost ≤ 0` (backorder) and an empty discount schedule (discounted). -/
theorem construction_invalid_parameters :
    (∀ (D S h : ℝ) (lt : Option ℝ) (m : BasicEOQ),
        BasicEOQ.init 0 D S h lt ≠ Except.ok m)
    ∧ (∀ (p D S h : ℝ) (lt : Option ℝ) (m : BasicEOQ), D < 0 →
        BasicEOQ.init p D S h lt ≠ Except.ok m)
    ∧ (∀ (p D S h : ℝ) (lt : Option ℝ) (m : BasicEOQ), S < 0 →
        BasicEOQ.init p D S h lt ≠ Except.ok m)
    ∧ (∀ (p D S h : ℝ) (lt : Option ℝ) (m : BasicEOQ), h < 0 →
        BasicEOQ.init p D S h lt ≠ Except.ok m)
    ∧ (∀ (p D S P h : ℝ) (lt : Option ℝ) (m : EPQ), P ≤ D →
        EPQ.init p D S P h lt ≠ Except.ok m)
    ∧ (∀ (p D S P h : ℝ) (lt : Option ℝ) (m : BackorderEOQ), P ≤ 0 →
        BackorderEOQ.init p D S P h lt ≠ Except.ok m)
    ∧ (∀ (p D S h : ℝ) (lt : Option ℝ) (m : DiscountEOQ),
        DiscountEOQ.init p D S h lt [] ≠ Except.ok m) := by
  refine ⟨?_, ?_, ?_, ?_, ?_, ?_, ?_⟩
  · intro D S h lt m
    rw [BasicEOQ.init, if_pos (Or.inr (Or.inr (Or.inl le_rfl)))]
    simp
  · intro p D S h lt m hD
    rw [BasicEOQ.init, if_pos (Or.inl hD.le)]
    simp
  · intro p D S h lt m hS
    rw [BasicEOQ.init, if_pos (Or.inr (Or.inl hS.le))]
    simp
  · intro p D S h lt m hh
    rw [BasicEOQ.init, if_pos (Or.inr (Or.inr (Or.inr hh.le)))]
    simp
  · intro p D S P h lt m hPD
    rw [EPQ.init]
    split_ifs with h1 h2 h3
    all_goals try simp
    all_goals exact absurd hPD h3
  · intro p D S P h lt m hP
    rw [BackorderEOQ.init]
    split_ifs with h1 h2
    all_goals try simp
    all_goals exact absurd hP h2
  · intro p D S h lt m
    rw [DiscountEOQ.init]
    split_ifs with h1 h2 h3
    all_goals try simp
    all_goals exact absurd rfl h2

/-- Witness for C7: each failing constructor input from the repository's
invalid-parameter tests. -/
theorem construction_invalid_parameters_witness :
    BasicEOQ.init 0 1000 30 0.25 none ≠ Except.ok basic_example
    ∧ BasicEOQ.init 10 (-1) 30 0.25 none ≠ Except.ok basic_example
    ∧ BasicEOQ.init 10 1000 (-5) 0.25 none ≠ Except.ok basic_example
    ∧ BasicEOQ.init 10 1000 30 (-0.2) none ≠ Except.ok basic_example
    ∧ EPQ.init 10 500 30 400 0.25 none ≠ Except.ok epq_example
    ∧ BackorderEOQ.init 9 800 25 0 0.2 none ≠ Except.ok backorder_example :=
  ⟨construction_invalid_parameters.1 1000 30 0.25 none basic_example,
    construction_invalid_parameters.2.1 10 (-1) 30 0.25 none basic_example (by norm_num),
    construction_invalid_parameters.2.2.1 10 1000 (-5) 0.25 none basic_example (by norm_num),
    construction_invalid_parameters.2.2.2.1 10 1000 30 (-0.2) none basic_example (by norm_num),
    construction_invalid_parameters.2.2.2.2.1 10 500 30 400 0.25 none epq_example (by norm_num),
    construction_invalid_parameters.2.2.2.2.2.1 9 800 25 0 0.2 none backorder_example le_rfl⟩

/-- C8: on every validly constructed backorder model the cycle metrics
satisfy `maxInventory + maxBackorder = Q*` (exactly, in real arithmetic),
where `Q*` is the value `calculate_eoq` returns. -/
theorem backorder_cycle_metrics_split (p D S P h : ℝ) (lt : Option ℝ)
    (m : BackorderEOQ) (hm : BackorderEOQ.init p D S P h lt = Except.ok m) :
    m.calculate_cycle_metrics.S_max + m.calculate_cycle_metrics.B_max
        = m.calculate_cycle_metrics.Q_opt
    ∧ m.calculate_cycle_metrics.Q_opt = m.calculate_eoq false := by
  rw [BackorderEOQ.init] at hm
  split_ifs at hm with h1 h2
  push_neg at h1 h2
  obtain ⟨hD, hS, hp, hh⟩ := h1
  cases hm
  refine ⟨?_, rfl⟩
  have hHP : p * h + P ≠ 0 := by positivity
  simp only [BackorderEOQ.calculate_cycle_metrics]
  field_simp
  ring

/-- Witness for C8: the backorder test model
`(price=9, D=1500, S=45, holdingRate=0.22, shortageCost=3)`. -/
theorem backorder_cycle_metrics_split_witness :
    backorder_example.calculate_cycle_metrics.S_max
        + backorder_example.calculate_cycle_metrics.B_max
      = backorder_example.calculate_cycle_metrics.Q_opt :=
  (backorder_cycle_metrics_split 9 1500 45 3 0.22 none backorder_example
    backorder_example_init).1

/-- C9: on every validly constructed production model, the production-phase
branch of the inventory curve evaluated at the phase boundary
`mod_t = Q/P` equals the depletion-phase branch there (`Q` being the
quantity `calculate_eoq` returns): the curve is continuous at the boundary. -/
theorem epq_inventory_continuous_at_boundary (p D S P h : ℝ) (lt : Option ℝ)
    (m : EPQ) (Q : ℝ) (hm : EPQ.init p D S P h lt = Except.ok m)
    (hQ : m.calculate_eoq false = Except.ok Q) :
    m.production_phase_value (Q / m.production_rate)
      = m.depletion_phase_value Q (Q / m.production_rate) := by
  rw [EPQ.init] at hm
  split_ifs at hm with h1 h2 h3
  push_neg at h2
  cases hm
  simp only [EPQ.production_phase_value, EPQ.depletion_phase_value, EPQ.max_inventory_at]
  have hP : P ≠ 0 := ne_of_gt h2
  field_simp
  ring

lemma discount_example_search :
    discount_example.search_result = some (500, 15220.625, 14.25) := by
  have hc1 : Real.sqrt (2 * 1000 * 40 / (15 * (1 - 0.05) * 0.25)) < 500 :=
    (Real.sqrt_lt' (by norm_num)).mpr (by norm_num)
  have hc2 : Real.sqrt (2 * 1000 * 40 / (15 * (1 - 0.10) * 0.25)) < 1200 :=
    (Real.sqrt_lt' (by norm_num)).mpr (by norm_num)
  simp only [DiscountEOQ.search_result, DiscountEOQ.tierSearch,
    DiscountEOQ.tier_order_quantity, DiscountEOQ.calculate_total_cost, discount_example]
  split_ifs <;> try norm_num
  all_goals exfalso; linarith

/-- C1: `DiscountEOQ.calculate_eoq` computes the composite
`(best_order_quantity, min_total_cost, best_unit_price)` internally but
returns only the bare scalar `best_order_quantity` — here `some 500`, not the
mapping with `best_quantity`, `min_total_cost` and `unit_price` components
that the repository's own tests index into. -/
theorem discount_eoq_returns_bare_scalar :
    DiscountEOQ.init 15 1000 40 0.25 none [(500, 0.05), (1200, 0.10)]
        = Except.ok discount_example
    ∧ discount_example.search_result = some (500, 15220.625, 14.25)
    ∧ ∀ b, discount_example.calculate_eoq b = some 500 :=
  ⟨discount_example_init, discount_example_search, fun b => by
    rw [DiscountEOQ.calculate_eoq, discount_example_search]
    rfl⟩

/-- C5: after construction the `discount_rates` mapping does contain the
injected `0 → 0` tier, but `sorted_discounts` — the sequence the tier search
iterates — was sorted before the injection and does not contain it. -/
theorem discount_zero_tier_not_searched :
    DiscountEOQ.init 15 1000 40 0.25 none [(500, 0.05)]
        = Except.ok discount_single_example
    ∧ ((0 : ℝ), (0 : ℝ)) ∈ discount_single_example.discount_rates
    ∧ discount_single_example.sorted_discounts = [(500, 0.05)]
    ∧ ((0 : ℝ), (0 : ℝ)) ∉ discount_single_example.sorted_discounts := by
  refine ⟨discount_single_example_init, by simp [discount_single_example], rfl, ?_⟩
  norm_num [discount_single_example, Prod.ext_iff]

/-- Counterexample to C6 as stated: the validly constructed model with
schedule `{0: 0, 1: 0}` (non-empty, rates in `[0,1)`, non-negative integer
breakpoints) gets best order quantity `0` — tier `0`'s upper bound is
`next_break - 1 = 0`, its cost omits the ordering component entirely, and
that makes it the cheapest tier. -/
theorem discount_eoq_zero_counterexample :
    DiscountEOQ.init 10 1000 50 0.2 none [(0, 0), (1, 0)]
        = Except.ok discount_zero_example
    ∧ discount_zero_example.calculate_eoq false = some 0 := by
  refine ⟨discount_zero_example_init, ?_⟩
  have hq : 0 < Real.sqrt (2 * 1000 * 50 / (10 * (1 - 0) * 0.2)) :=
    Real.sqrt_pos.mpr (by norm_num)
  have hone : ¬ Real.sqrt (2 * 1000 * 50 / (10 * (1 - 0) * 0.2)) < 1 :=
    not_lt.mpr ((Real.le_sqrt' (by norm_num)).mpr (by norm_num))
  have hdiv : 0 < 1000 / Real.sqrt (2 * 1000 * 50 / (10 * (1 - 0) * 0.2)) * 50 := by
    positivity
  simp only [DiscountEOQ.calculate_eoq, DiscountEOQ.search_result, DiscountEOQ.tierSearch,
    DiscountEOQ.tier_order_quantity, DiscountEOQ.calculate_total_cost, discount_zero_example]
  split_ifs <;> try norm_num
  all_goals exfalso; linarith

lemma tier_order_quantity_nonneg (m : DiscountEOQ) (mq r : ℝ) (rest : List (ℝ × ℝ))
    (hmq : 0 ≤ mq) (hnext : ∀ b r2 rest2, rest = (b, r2) :: rest2 → 1 ≤ b) :
    0 ≤ m.tier_order_quantity mq r rest := by
  cases rest with
  | nil =>
    simp only [DiscountEOQ.tier_order_quantity]
    split_ifs
    · exact hmq
    · exact Real.sqrt_nonneg _
  | cons b rest2 =>
    obtain ⟨bb, r2⟩ := b
    have hb := hnext bb r2 rest2 rfl
    simp only [DiscountEOQ.tier_order_quantity]
    split_ifs
    · linarith
    · exact hmq
    · exact Real.sqrt_nonneg _

lemma tier_order_quantity_pos (m : DiscountEOQ) (mq r : ℝ) (rest : List (ℝ × ℝ))
    (hcand : 0 < Real.sqrt (2 * m.demand_rate * m.ordering_cost /
      (m.price * (1 - r) * m.holding_rate)))
    (hnext : ∀ b r2 rest2, rest = (b, r2) :: rest2 → 2 ≤ b) :
    0 < m.tier_order_quantity mq r rest := by
  cases rest with
  | nil =>
    simp only [DiscountEOQ.tier_order_quantity]
    split_ifs with h
    · linarith
    · exact hcand
  | cons b rest2 =>
    obtain ⟨bb, r2⟩ := b
    have hb := hnext bb r2 rest2 rfl
    simp only [DiscountEOQ.tier_order_quantity]
    split_ifs with h1 h2
    · linarith
    · linarith
    · exact hcand

lemma tierSearch_isSome (m : DiscountEOQ) :
    ∀ (l : List (ℝ × ℝ)) (acc : Option (ℝ × ℝ × ℝ)),
      acc.isSome = true ∨ l ≠ [] → (m.tierSearch l acc).isSome = true := by
  intro l
  induction l with
  | nil =>
    intro acc h
    simp only [DiscountEOQ.tierSearch]
    rcases h with h | h
    · exact h
    · exact absurd rfl h
  | cons a rest ih =>
    intro acc h
    obtain ⟨mq, r⟩ := a
    simp only [DiscountEOQ.tierSearch]
    cases acc with
    | none => exact ih _ (Or.inl rfl)
    | some b =>
      dsimp only
      split_ifs
      · exact ih _ (Or.inl rfl)
      · exact ih _ (Or.inl rfl)

/-- Any property of the per-tier clamped order quantities is inherited by the
quantity component of the final accumulator of the tier search. -/
lemma tierSearch_qty_prop (m : DiscountEOQ) (P : ℝ → Prop) :
    ∀ (l : List (ℝ × ℝ)) (acc : Option (ℝ × ℝ × ℝ)),
      (∀ pre mq r rest, l = pre ++ (mq, r) :: rest →
        P (m.tier_order_quantity mq r rest)) →
      (∀ y ∈ acc, P y.1) →
      ∀ y ∈ m.tierSearch l acc, P y.1 := by
  intro l
  induction l with
  | nil =>
    intro acc hstep hacc y hy
    simp only [DiscountEOQ.tierSearch] at hy
    exact hacc y hy
  | cons a rest ih =>
    intro acc hstep hacc y hy
    obtain ⟨mq, r⟩ := a
    simp only [DiscountEOQ.tierSearch] at hy
    have h0 : P (m.tier_order_quantity mq r rest) := hstep [] mq r rest rfl
    have hstep' : ∀ pre mq' r' rest', rest = pre ++ (mq', r') :: rest' →
        P (m.tier_order_quantity mq' r' rest') := by
      intro pre mq' r' rest' hdec
      exact hstep ((mq, r) :: pre) mq' r' rest' (by rw [hdec]; rfl)
    cases acc with
    | none =>
      refine ih _ hstep' ?_ y hy
      intro z hz
      rw [Option.mem_def, Option.some.injEq] at hz
      subst hz
      exact h0
    | some b =>
      dsimp only at hy
      split_ifs at hy
      · refine ih _ hstep' ?_ y hy
        intro z hz
        rw [Option.mem_def, Option.some.injEq] at hz
        subst hz
        exact h0
      · refine ih _ hstep' ?_ y hy
        intro z hz
        rw [Option.mem_def, Option.some.injEq] at hz
        subst hz
        exact hacc b rfl

/-- Sign facts about the tier search of a discounted model, stated on the
instance fields directly: with positive base parameters, a non-empty sorted
tier list coming from a schedule `dr` with rates below `1` and distinct
natural-number breakpoints, the search yields a quantity, it is
non-negative, and it is positive when no breakpoint equals `1`. -/
lemma discount_search_sign (m : DiscountEOQ) (dr : List (ℝ × ℝ))
    (hp' : 0 < m.price) (hD' : 0 < m.demand_rate) (hS' : 0 < m.ordering_cost)
    (hh' : 0 < m.holding_rate)
    (hmsd : m.sorted_discounts = List.insertionSort tierLe dr)
    (hrates : ∀ x ∈ dr, 0 ≤ x.2 ∧ x.2 < 1)
    (hne : dr ≠ [])
    (hkeys : ∀ x ∈ dr, ∃ n : ℕ, x.1 = (n : ℝ))
    (hnodup : (dr.map Prod.fst).Nodup) :
    ∃ q, m.calculate_eoq false = some q ∧ 0 ≤ q
      ∧ ((∀ x ∈ dr, x.1 ≠ 1) → 0 < q) := by
  have hperm : (List.insertionSort tierLe dr).Perm dr :=
    List.perm_insertionSort tierLe dr
  have hsorted : List.Pairwise tierLe (List.insertionSort tierLe dr) :=
    List.sorted_insertionSort tierLe dr
  have hnodup' : ((List.insertionSort tierLe dr).map Prod.fst).Nodup :=
    ((hperm.map Prod.fst).nodup_iff).mpr hnodup
  have hpne : List.Pairwise (fun x y : ℝ × ℝ => x.1 ≠ y.1)
      (List.insertionSort tierLe dr) := List.pairwise_map.mp hnodup'
  have hplt : List.Pairwise (fun x y : ℝ × ℝ => x.1 < y.1)
      (List.insertionSort tierLe dr) := by
    refine (hsorted.and hpne).imp ?_
    rintro a b ⟨hab | ⟨heq, _⟩, hne2⟩
    · exact hab
    · exact absurd heq hne2
  have hne_nil : List.insertionSort tierLe dr ≠ [] := by
    intro h
    apply hne
    have hlen := hperm.length_eq
    rw [h] at hlen
    exact List.length_eq_zero.mp hlen.symm
  have hsome := tierSearch_isSome m (List.insertionSort tierLe dr) none
    (Or.inr hne_nil)
  obtain ⟨y, hy⟩ := Option.isSome_iff_exists.mp hsome
  have hymem : y ∈ m.tierSearch (List.insertionSort tierLe dr) none := by
    rw [Option.mem_def, hy]
  have key_facts : ∀ pre mq r rest,
      List.insertionSort tierLe dr = pre ++ (mq, r) :: rest →
      ((mq, r) ∈ dr ∧ 0 ≤ mq
        ∧ ∀ b r2 rest2, rest = (b, r2) :: rest2 →
            ((b, r2) ∈ dr ∧ mq < b)) := by
    intro pre mq r rest hdec
    have hmem : (mq, r) ∈ List.insertionSort tierLe dr := by
      rw [hdec]
      exact List.mem_append_right pre (List.mem_cons_self _ _)
    have hmemdr : (mq, r) ∈ dr := hperm.subset hmem
    obtain ⟨n, hn⟩ := hkeys _ hmemdr
    replace hn : mq = (n : ℝ) := hn
    have hmq0 : 0 ≤ mq := by rw [hn]; exact Nat.cast_nonneg n
    refine ⟨hmemdr, hmq0, ?_⟩
    intro b r2 rest2 hr2
    have hplt' := hplt
    rw [hdec] at hplt'
    have htail := (List.pairwise_append.mp hplt').2.1
    have hhead := (List.pairwise_cons.mp htail).1
    have hbrest : (b, r2) ∈ rest := by rw [hr2]; exact List.mem_cons_self _ _
    have hmqb : mq < b := hhead (b, r2) hbrest
    have hbsorted : (b, r2) ∈ List.insertionSort tierLe dr := by
      rw [hdec]
      exact List.mem_append_right pre (List.mem_cons_of_mem _ hbrest)
    exact ⟨hperm.subset hbsorted, hmqb⟩
  refine ⟨y.1, ?_, ?_, ?_⟩
  · rw [DiscountEOQ.calculate_eoq, DiscountEOQ.search_result, hmsd, hy]
    rfl
  · refine tierSearch_qty_prop m (fun q => 0 ≤ q) (List.insertionSort tierLe dr)
      none ?_ (by intro z hz; cases hz) y hymem
    intro pre mq r rest hdec
    obtain ⟨hmemdr, hmq0, hrest⟩ := key_facts pre mq r rest hdec
    refine tier_order_quantity_nonneg m mq r rest hmq0 ?_
    intro b r2 rest2 hr2
    obtain ⟨hbdr, hmqb⟩ := hrest b r2 rest2 hr2
    obtain ⟨nb, hnb⟩ := hkeys _ hbdr
    replace hnb : b = (nb : ℝ) := hnb
    have hb0 : (0 : ℝ) < nb := by rw [← hnb]; linarith
    have hnb1 : 1 ≤ nb := by exact_mod_cast hb0
    rw [hnb]
    exact_mod_cast hnb1
  · intro hno1
    refine tierSearch_qty_prop m (fun q => 0 < q) (List.insertionSort tierLe dr)
      none ?_ (by intro z hz; cases hz) y hymem
    intro pre mq r rest hdec
    obtain ⟨hmemdr, hmq0, hrest⟩ := key_facts pre mq r rest hdec
    obtain ⟨hr0, hr1⟩ := hrates _ hmemdr
    have hcand : 0 < Real.sqrt (2 * m.demand_rate * m.ordering_cost /
        (m.price * (1 - r) * m.holding_rate)) := by
      refine Real.sqrt_pos.mpr (div_pos ?_ ?_)
      · exact mul_pos (mul_pos two_pos hD') hS'
      · exact mul_pos (mul_pos hp' (by linarith)) hh'
    refine tier_order_quantity_pos m mq r rest hcand ?_
    intro b r2 rest2 hr2
    obtain ⟨hbdr, hmqb⟩ := hrest b r2 rest2 hr2
    obtain ⟨nb, hnb⟩ := hkeys _ hbdr
    replace hnb : b = (nb : ℝ) := hnb
    have hb0 : (0 : ℝ) < nb := by rw [← hnb]; linarith
    have hnb1 : 1 ≤ nb := by exact_mod_cast hb0
    have hbne1 : (nb : ℝ) ≠ 1 := by rw [← hnb]; exact hno1 _ hbdr
    have hnbne1 : nb ≠ 1 := by
      intro h
      apply hbne1
      rw [h]
      norm_num
    have hnb2 : 2 ≤ nb := by omega
    rw [hnb]
    exact_mod_cast hnb2

/-- C6 (amended): for every validly constructed discounted model whose
schedule has distinct natural-number breakpoints, the returned best quantity
is non-negative; it is strictly positive provided no breakpoint equals `1`
(when `1` is a breakpoint, the preceding tier's upper bound
`next_break - 1 = 0` can win, making the returned quantity `0`). -/
theorem discount_eoq_quantity_sign (price D S hr : ℝ) (lt : Option ℝ)
    (dr : List (ℝ × ℝ)) (m : DiscountEOQ)
    (hinit : DiscountEOQ.init price D S hr lt dr = Except.ok m)
    (hkeys : ∀ x ∈ dr, ∃ n : ℕ, x.1 = (n : ℝ))
    (hnodup : (dr.map Prod.fst).Nodup) :
    ∃ q, m.calculate_eoq false = some q ∧ 0 ≤ q
      ∧ ((∀ x ∈ dr, x.1 ≠ 1) → 0 < q) := by
  rw [DiscountEOQ.init] at hinit
  split_ifs at hinit with h1 h2 h3 h4
  all_goals try exact Except.noConfusion hinit
  all_goals push_neg at h1
  all_goals obtain ⟨hD, hS, hp, hh⟩ := h1
  all_goals cases hinit
  all_goals exact discount_search_sign _ dr hp hD hS hh rfl h3 h2 hkeys hnodup

/-- Witness for C6 (amended): the discount test model with schedule
`{500: 0.05, 1200: 0.10}` gets a strictly positive best quantity. -/
theorem discount_eoq_quantity_sign_witness :
    ∃ q, discount_example.calculate_eoq false = some q ∧ 0 ≤ q
      ∧ ((∀ x ∈ [((500 : ℝ), (0.05 : ℝ)), (1200, 0.10)], x.1 ≠ 1) → 0 < q) :=
  discount_eoq_quantity_sign 15 1000 40 0.25 none [(500, 0.05), (1200, 0.10)]
    discount_example discount_example_init
    (by
      intro x hx
      rcases List.mem_cons.mp hx with rfl | hx
      · exact ⟨500, by norm_num⟩
      rcases List.mem_cons.mp hx with rfl | hx
      · exact ⟨1200, by norm_num⟩
      cases hx)
    (by norm_num)

/-- Witness for C9: the production test model
`(price=12, D=500, S=40, holdingRate=0.25, productionRate=1000)`. -/
theorem epq_inventory_continuous_at_boundary_witness :
    epq_example.production_phase_value
        (Real.sqrt (80000 / 3) / epq_example.production_rate)
      = epq_example.depletion_phase_value (Real.sqrt (80000 / 3))
          (Real.sqrt (80000 / 3) / epq_example.production_rate) :=
  epq_inventory_continuous_at_boundary 12 500 40 1000 0.25 none epq_example
    (Real.sqrt (80000 / 3)) epq_example_init
    (by simp only [EPQ.calculate_eoq, epq_example]; norm_num)

end
